/-
Verification of the Secret-Manager vault engine.

Shallow embedding of the encrypted-vault core of the repository:
  * step_2_add_encryption.py  — document-form vault (one encrypted JSON blob)
  * step_3_database_connection.py — tabular-form vault (SQLite, one row per entry)

Bytes are modelled as `List Nat` with values below 256.  Base64 is
implemented concretely (RFC 4648 alphabet, with `=` padding).  The
cryptographic primitives PBKDF2-HMAC-SHA256 and Fernet are modelled
symbolically: a derived key is the triple of inputs that produced it
(PBKDF2 is deterministic and, idealised, collision-free on inputs), and a
Fernet token records the key it was produced under together with its
plaintext payload; decryption succeeds exactly when the presented key
equals the token's key, which is Fernet's authenticated-encryption
contract (`InvalidToken` otherwise).
-/
import Mathlib

namespace SecretManager

/-- A byte string: list of naturals, well formed when every entry is < 256. -/
def ValidBytes (bs : List Nat) : Prop := ∀ b ∈ bs, b < 256

instance : DecidablePred ValidBytes := fun bs =>
  inferInstanceAs (Decidable (∀ b ∈ bs, b < 256))

/-- Base64: pack a byte list into 6-bit groups (values < 64), following the
3-bytes-to-4-sextets scheme of RFC 4648. -/
def b64EncSextets : List Nat → List Nat
  | [] => []
  | [b0] => [b0 / 4, b0 % 4 * 16]
  | [b0, b1] => [b0 / 4, b0 % 4 * 16 + b1 / 16, b1 % 16 * 4]
  | b0 :: b1 :: b2 :: rest =>
      b0 / 4 :: (b0 % 4 * 16 + b1 / 16) :: (b1 % 16 * 4 + b2 / 64) :: b2 % 64 ::
        b64EncSextets rest

/-- Base64: unpack 6-bit groups back into bytes.  Final groups of length 2
or 3 correspond to `==` / `=` padded chunks; spare low bits in the last
sextet are ignored, as CPython's `base64.b64decode` ignores them. -/
def b64DecSextets : List Nat → List Nat
  | s0 :: s1 :: s2 :: s3 :: rest =>
      (s0 * 4 + s1 / 16) :: (s1 % 16 * 16 + s2 / 4) :: (s2 % 4 * 64 + s3) ::
        b64DecSextets rest
  | [s0, s1] => [s0 * 4 + s1 / 16]
  | [s0, s1, s2] => [s0 * 4 + s1 / 16, s1 % 16 * 16 + s2 / 4]
  | _ => []

/-- The 64-character base64 alphabet of RFC 4648. -/
def b64Alphabet : List Char :=
  ['A','B','C','D','E','F','G','H','I','J','K','L','M','N','O','P',
   'Q','R','S','T','U','V','W','X','Y','Z',
   'a','b','c','d','e','f','g','h','i','j','k','l','m','n','o','p',
   'q','r','s','t','u','v','w','x','y','z',
   '0','1','2','3','4','5','6','7','8','9','+','/']

/-- Character for a 6-bit value. -/
def sixToChar (n : Nat) : Char := b64Alphabet.getD n 'A'

/-- Inverse character lookup; `none` for characters outside the alphabet. -/
def charToSix (c : Char) : Option Nat := b64Alphabet.findIdx? (fun d => d = c)

/-- Number of `=` padding characters base64 appends for a byte count. -/
def b64PadCount (n : Nat) : Nat := (3 - n % 3) % 3

/-- Model of Python `base64.b64encode(bs).decode("ascii")`. -/
def b64encode (bs : List Nat) : String :=
  String.mk ((b64EncSextets bs).map sixToChar ++ List.replicate (b64PadCount bs.length) '=')

/-- Translate a character list back to sextets, failing on any character
outside the base64 alphabet. -/
def charsToSextets : List Char → Option (List Nat)
  | [] => some []
  | c :: cs =>
      match charToSix c, charsToSextets cs with
      | some n, some ns => some (n :: ns)
      | _, _ => none

/-- Model of Python `base64.b64decode`: strip padding, translate the
alphabet characters back to sextets (failing on foreign characters), and
unpack.  CPython additionally discards foreign characters silently; the
strings this program ever writes contain none, so the difference is
outside every reachable input. -/
def b64decode (s : String) : Option (List Nat) :=
  (charsToSextets (s.data.filter (fun c => c ≠ '='))).map b64DecSextets

instance {ε α : Type} [DecidableEq ε] [DecidableEq α] : DecidableEq (Except ε α) :=
  fun x y =>
    match x, y with
    | .ok a, .ok b =>
        if h : a = b then .isTrue (by rw [h])
        else .isFalse (fun hc => h (by injection hc))
    | .error a, .error b =>
        if h : a = b then .isTrue (by rw [h])
        else .isFalse (fun hc => h (by injection hc))
    | .ok _, .error _ => .isFalse (fun hc => by injection hc)
    | .error _, .ok _ => .isFalse (fun hc => by injection hc)

/-- Errors raised or caught by the Python code, by exception class.
`valueErr` covers `ValueError` and its subclasses `binascii.Error`,
`UnicodeDecodeError`; `jsonDecodeErr` is `json.JSONDecodeError` (also a
`ValueError` subclass, kept separate because the loader names it in its
except clause); `typeErr` is `TypeError`, raised when a field holds a
JSON value of the wrong type — caught by neither except clause of the
loader. -/
inductive PyErr
  | invalidToken
  | valueErr
  | keyErr
  | jsonDecodeErr
  | typeErr
deriving DecidableEq, Repr

/-- Symbolic PBKDF2-HMAC-SHA256 derived Fernet key: PBKDF2 is a
deterministic function of (password, salt, iterations), idealised as
injective; a key value is therefore represented by that input triple. -/
structure FernetKey where
  password : String
  salt : List Nat
  iterations : Int
deriving DecidableEq, Repr

/-- Model of `derive_fernet_key` (identical in step_2_add_encryption.py
and step_3_database_connection.py): rejects an empty password or a salt
shorter than 8 bytes with `ValueError`, otherwise deterministically
produces the key for (password, salt, iterations). -/
def derive_fernet_key (password : String) (salt : List Nat) (iterations : Int) :
    Except PyErr FernetKey :=
  if password = "" then .error .valueErr
  else if salt.length < 8 then .error .valueErr
  else .ok ⟨password, salt, iterations⟩

namespace Step2

/-- Plaintext bytes handed to Fernet, at the typed level of the
documents this program itself writes: the UTF-8 JSON serialisation of a
string-to-string dict (the only payload `encrypt_vault_dict` produces),
or `raw` bytes standing for a payload whose `json.loads` raises
(invalid UTF-8 or invalid JSON).  This typed level deliberately cannot
express a payload that is valid JSON of non-dict shape — the source
loads those successfully and returns them; that behaviour is modelled
at the untyped level in `Step2.Raw`. -/
inductive Plaintext
  | vaultJson (v : List (String × String))
  | raw (bs : List Nat)
deriving DecidableEq, Repr

/-- Symbolic Fernet token: records the key that produced it and the
payload.  Fernet's AEAD contract: decryption under a different key, or of
a modified token, fails with `InvalidToken`. -/
structure Token where
  key : FernetKey
  payload : Plaintext
deriving DecidableEq, Repr

/-- Model of `Fernet(key).encrypt(plaintext)`. -/
def fernetEncrypt (k : FernetKey) (pt : Plaintext) : Token := ⟨k, pt⟩

/-- Model of `Fernet(key).decrypt(token)`: succeeds with the payload
exactly when the key matches, raises `InvalidToken` otherwise. -/
def fernetDecrypt (k : FernetKey) (t : Token) : Except PyErr Plaintext :=
  if t.key = k then .ok t.payload else .error .invalidToken

/-- Model of `json.loads` on decrypted plaintext, restricted to the
typed level: a dict payload loads as the dict; `raw` bytes raise
(`json.JSONDecodeError`, or `UnicodeDecodeError`, a `ValueError`).
Valid JSON of non-dict shape — which `json.loads` returns successfully —
is outside this typed level; see `Step2.Raw.pyJsonLoads` for the
untyped treatment. -/
def jsonLoads : Plaintext → Except PyErr (List (String × String))
  | .vaultJson v => .ok v
  | .raw _ => .error .jsonDecodeErr

/-- The on-disk JSON document, at the typed level of what this program
writes.  Fields are `Option` because a document read back from disk may
lack them (`doc["salt"]` then raises `KeyError`).  The ciphertext field
holds the Fernet token; on disk it is that token's base64 text, which
round-trips, so the model carries the token itself.  A present field
here always holds a value of the JSON type the program writes;
present-but-wrong-typed values (a numeric salt, a list in iterations),
on which the source raises an uncaught `TypeError` rather than its
malformed-vault `ValueError`, are representable only at the untyped
level `Step2.Raw.RawDoc`. -/
structure VaultDoc where
  version : Option Int
  kdf : Option String
  iterations : Option Int
  salt : Option String
  ciphertext : Option Token
deriving DecidableEq, Repr

/-- `KDF_ITERATIONS` constant of step_2_add_encryption.py. -/
def KDF_ITERATIONS : Int := 200000

/-- `SALT_BYTES` constant (both files). -/
def SALT_BYTES : Nat := 16

/-- Model of `new_vault_doc`: the JSON structure saved on disk. -/
def new_vault_doc (ciphertext : Token) (salt : List Nat) (iterations : Int) : VaultDoc :=
  { version := some 1
    kdf := some "PBKDF2HMAC-SHA256"
    iterations := some iterations
    salt := some (b64encode salt)
    ciphertext := some ciphertext }

/-- Model of `get_salt_and_iterations`: reads and decodes the salt and
iterations fields; a missing field raises `KeyError`, an undecodable salt
raises `binascii.Error`, a `ValueError` subclass. -/
def get_salt_and_iterations (doc : VaultDoc) : Except PyErr (List Nat × Int) :=
  match doc.salt with
  | none => .error .keyErr
  | some saltText =>
    match b64decode saltText with
    | none => .error .valueErr
    | some salt =>
      match doc.iterations with
      | none => .error .keyErr
      | some iterations => .ok (salt, iterations)

/-- Model of `encrypt_vault_dict`: derive the key, JSON-serialise the
dict, encrypt, and wrap into a document via `new_vault_doc`. -/
def encrypt_vault_dict (vault : List (String × String)) (password : String)
    (salt : List Nat) (iterations : Int) : Except PyErr VaultDoc :=
  match derive_fernet_key password salt iterations with
  | .error e => .error e
  | .ok key => .ok (new_vault_doc (fernetEncrypt key (.vaultJson vault)) salt iterations)

/-- Model of `decrypt_vault_dict`: read salt/iterations from the
document, re-derive the key, decrypt the stored token, parse the JSON. -/
def decrypt_vault_dict (doc : VaultDoc) (password : String) :
    Except PyErr (List (String × String)) :=
  match get_salt_and_iterations doc with
  | .error e => .error e
  | .ok (salt, iterations) =>
    match derive_fernet_key password salt iterations with
    | .error e => .error e
    | .ok key =>
      match doc.ciphertext with
      | none => .error .keyErr
      | some token =>
        match fernetDecrypt key token with
        | .error e => .error e
        | .ok plaintext => jsonLoads plaintext

/-- Contents of the vault file as found on disk, at the typed level:
unparsable text, or a JSON object of well-typed fields.  Valid JSON
whose top level is not an object is representable only at the untyped
level `Step2.Raw.RawFileContent`. -/
inductive FileContent
  | notJson
  | doc (d : VaultDoc)
deriving DecidableEq, Repr

/-- State of the backing file. -/
inductive FileState
  | missing
  | present (c : FileContent)
deriving DecidableEq, Repr

/-- Outcomes of `load_or_init_vault` as surfaced to its caller. -/
inductive LoadErr
  | wrongPasswordOrCorrupted
  | malformedVault
  | uncaughtValueError
deriving DecidableEq, Repr

/-- Model of `load_or_init_vault`.  `freshSalt` stands for the
`os.urandom(SALT_BYTES)` draw on the initialisation path.  On success
returns the decrypted dict together with the document written to disk
(`some` only on the initialisation path, which is the only write).  When
the file exists, `InvalidToken` is re-raised as wrong-password-or-
corrupted and `json.JSONDecodeError`/`KeyError`/`ValueError` become the
malformed-vault error; a `ValueError` on the missing-file path (empty
password) is raised outside the try block and propagates uncaught. -/
def load_or_init_vault (fs : FileState) (password : String) (freshSalt : List Nat) :
    Except LoadErr (List (String × String) × Option VaultDoc) :=
  match fs with
  | .missing =>
      match encrypt_vault_dict [] password freshSalt KDF_ITERATIONS with
      | .ok d => .ok ([], some d)
      | .error _ => .error .uncaughtValueError
  | .present .notJson => .error .malformedVault
  | .present (.doc d) =>
      match decrypt_vault_dict d password with
      | .ok v => .ok (v, none)
      | .error .invalidToken => .error .wrongPasswordOrCorrupted
      | .error _ => .error .malformedVault

/-- Model of `save_vault`: re-read the document on disk, reuse its
salt/iterations, re-encrypt the dict and write the result. -/
def save_vault (vault : List (String × String)) (password : String)
    (docOnDisk : VaultDoc) : Except PyErr VaultDoc :=
  match get_salt_and_iterations docOnDisk with
  | .error e => .error e
  | .ok (salt, iterations) => encrypt_vault_dict vault password salt iterations

namespace Raw

/-
The untyped JSON level of the same source lines (step_2_add_encryption.py
57-112).  A file on disk is arbitrary JSON, so every field of the
document can be missing or can hold a value of any JSON type, the
document's top level can fail to be an object, and the decrypted
plaintext can be valid JSON of any shape.  The load pipeline's behaviour
on all of those inputs is modelled here.
-/

/-- A JSON value occupying a field of the raw document: a JSON string, a
JSON number, or any other JSON value (array, object, boolean, null) —
`other`, on which both `base64.b64decode` and `int` raise `TypeError`. -/
inductive JField
  | str (s : String)
  | num (n : Int)
  | other
deriving DecidableEq, Repr

/-- Decrypted plaintext bytes at the untyped level: the UTF-8 JSON text
of a string-to-string dict, valid UTF-8 JSON of any other shape (which
`json.loads` returns successfully), or bytes whose decode or parse
raises (`UnicodeDecodeError` / `json.JSONDecodeError`). -/
inductive RawPlaintext
  | jsonDict (v : List (String × String))
  | jsonNonDict
  | notJson
deriving DecidableEq, Repr

/-- Symbolic Fernet token over untyped payloads. -/
structure RawToken where
  key : FernetKey
  payload : RawPlaintext
deriving DecidableEq, Repr

/-- The ciphertext field value.  A JSON string here either is the base64
text of a well-formed Fernet token — carried symbolically as `tokStr` —
or any other string `nonTokStr s`: for those, base64-decoding `s` either
fails (`binascii.Error`, a `ValueError`) or yields bytes that are not a
valid token, on which Fernet raises `InvalidToken`.  Non-string JSON
values make `base64.b64decode` raise `TypeError`. -/
inductive CtField
  | tokStr (t : RawToken)
  | nonTokStr (s : String)
  | num (n : Int)
  | other
deriving DecidableEq, Repr

/-- The on-disk document at the untyped JSON level: a JSON object whose
fields may be absent or hold a value of any JSON type.  `version` and
`kdf` are never read by the load pipeline. -/
structure RawDoc where
  version : Option JField
  kdf : Option JField
  iterations : Option JField
  salt : Option JField
  ciphertext : Option CtField
deriving DecidableEq, Repr

/-- Python `int(x)` on a JSON field value: numbers pass through, strings
parse as decimal integers (modelled by `String.toInt?`; CPython's extra
leniency — surrounding whitespace, a leading `+`, `_` digit separators,
non-ASCII digits — is not modelled), and any other value raises
`TypeError`. -/
def pyInt : JField → Except PyErr Int
  | .num n => .ok n
  | .str s =>
      match s.toInt? with
      | some n => .ok n
      | none => .error .valueErr
  | .other => .error .typeErr

/-- Python `base64.b64decode(x)` on a JSON field value: strings decode
or raise `binascii.Error` (a `ValueError`); numbers and every other
JSON value raise `TypeError`. -/
def pyB64decode : JField → Except PyErr (List Nat)
  | .str s =>
      match b64decode s with
      | some bs => .ok bs
      | none => .error .valueErr
  | .num _ => .error .typeErr
  | .other => .error .typeErr

/-- `get_salt_and_iterations` at the untyped level (lines 70-73):
`doc["salt"]` (`KeyError` when missing), `base64.b64decode` on its
value, then `doc["iterations"]` and `int` on its value. -/
def get_salt_and_iterations (doc : RawDoc) : Except PyErr (List Nat × Int) :=
  match doc.salt with
  | none => .error .keyErr
  | some saltVal =>
    match pyB64decode saltVal with
    | .error e => .error e
    | .ok salt =>
      match doc.iterations with
      | none => .error .keyErr
      | some itVal =>
        match pyInt itVal with
        | .error e => .error e
        | .ok iterations => .ok (salt, iterations)

/-- Model of `Fernet(key).decrypt` on a stored token at the untyped
level. -/
def fernetDecryptRaw (k : FernetKey) (t : RawToken) : Except PyErr RawPlaintext :=
  if t.key = k then .ok t.payload else .error .invalidToken

/-- What `json.loads` gives back in the source: any JSON value.  The
loader returns it as the vault with no type check. -/
inductive LoadedVault
  | dict (v : List (String × String))
  | nonDict
deriving DecidableEq, Repr

/-- Python `json.loads` on decrypted plaintext: a dict loads as the
dict, valid JSON of any other shape loads successfully as that value,
and anything else raises (a `ValueError` subclass). -/
def pyJsonLoads : RawPlaintext → Except PyErr LoadedVault
  | .jsonDict v => .ok (.dict v)
  | .jsonNonDict => .ok .nonDict
  | .notJson => .error .jsonDecodeErr

/-- `decrypt_vault_dict` at the untyped level (lines 86-92): read
salt/iterations, derive the key, read and base64-decode the ciphertext
field, Fernet-decrypt, `json.loads` the plaintext. -/
def decrypt_vault_dict (doc : RawDoc) (password : String) : Except PyErr LoadedVault :=
  match get_salt_and_iterations doc with
  | .error e => .error e
  | .ok (salt, iterations) =>
    match derive_fernet_key password salt iterations with
    | .error e => .error e
    | .ok key =>
      match doc.ciphertext with
      | none => .error .keyErr
      | some ctVal =>
        match ctVal with
        | .tokStr t =>
          match fernetDecryptRaw key t with
          | .error e => .error e
          | .ok pt => pyJsonLoads pt
        | .nonTokStr s =>
          match b64decode s with
          | some _ => .error .invalidToken
          | none => .error .valueErr
        | .num _ => .error .typeErr
        | .other => .error .typeErr

/-- The vault file's contents at the untyped level: unparsable text
(`json.load` raises `JSONDecodeError`), valid JSON whose top level is
not an object (`doc["salt"]` then raises `TypeError`), or a JSON
object. -/
inductive RawFileContent
  | notJson
  | nonObjectJson
  | obj (d : RawDoc)
deriving DecidableEq, Repr

/-- Outcome of opening an existing vault file. -/
inductive LoadResult
  | ok (v : LoadedVault)
  | wrongPasswordOrCorrupted
  | malformedVault
  | uncaught
deriving DecidableEq, Repr

/-- The existing-file branch of `load_or_init_vault` (lines 104-112) at
the untyped level.  `except InvalidToken` re-raises as
wrong-password-or-corrupted; `except (json.JSONDecodeError, KeyError,
ValueError)` becomes the malformed-vault error; a `TypeError` from a
wrong-typed field or a non-object document matches neither clause and
propagates out of the function uncaught.  (The missing-file branch is
the initialisation path, modelled by `Step2.load_or_init_vault`; it is
not part of the existing-file failure classification.) -/
def load_existing_vault (c : RawFileContent) (password : String) : LoadResult :=
  match c with
  | .notJson => .malformedVault
  | .nonObjectJson => .uncaught
  | .obj d =>
    match decrypt_vault_dict d password with
    | .ok v => .ok v
    | .error .invalidToken => .wrongPasswordOrCorrupted
    | .error .typeErr => .uncaught
    | .error _ => .malformedVault

end Raw

end Step2

namespace Step3

/-- `KDF_ITERATIONS` constant of step_3_database_connection.py. -/
def KDF_ITERATIONS : Int := 200000

/-- Symbolic Fernet token of the tabular vault: per-row ciphertext of a
single UTF-8 API-key string. -/
structure Token where
  key : FernetKey
  payload : String
deriving DecidableEq, Repr

/-- Model of `Fernet(key).encrypt(api_key.encode("utf-8"))`. -/
def fernetEncrypt (k : FernetKey) (apiKey : String) : Token := ⟨k, apiKey⟩

/-- Model of `fernet.decrypt(token).decode("utf-8")`: the payload exactly
when the key matches, `InvalidToken` (here `none`) otherwise. -/
def fernetDecrypt (k : FernetKey) (t : Token) : Option String :=
  if t.key = k then some t.payload else none

/-- The `meta` table: unencrypted KDF parameters.  `salt` holds the
base64 text stored under key `"salt"`; `iterations` the integer value of
the text stored under key `"iterations"`. -/
structure Meta where
  salt : String
  iterations : Int
deriving DecidableEq, Repr

/-- Persisted database state: the `meta` table plus the `secrets` table,
one row `(service, ciphertext)` per entry, `service` a primary key. -/
structure DbState where
  meta : Meta
  secrets : List (String × Token)
deriving DecidableEq, Repr

/-- Phase 1 of `change_master_password`: decrypt every row under the old
key, in table order, collecting `(service, api_key)` pairs; `none` as
soon as any single decryption raises `InvalidToken`. -/
def decryptAllRows (k : FernetKey) : List (String × Token) → Option (List (String × String))
  | [] => some []
  | (service, t) :: rest =>
      match fernetDecrypt k t with
      | some apiKey => (decryptAllRows k rest).map (fun tail => (service, apiKey) :: tail)
      | none => none

/-- Outcome of the password-rotation flow, as the source reports it:
`ok` on success, `authFailure` for the phase-1 abort, `invalidInput` for
an empty or mismatched new password, `storageFailure` for the caught
exception in the row re-encryption transaction, `uncaughtError` for an
exception that would propagate out of the function. -/
inductive RotOutcome
  | ok
  | authFailure
  | invalidInput
  | storageFailure
  | uncaughtError
deriving DecidableEq, Repr

/-- Failure injection point for the write phase of rotation.
`rowWriteFail` models an exception inside the `with conn:` block that
re-encrypts the rows: sqlite rolls back that block's row updates only. -/
inductive FailPoint
  | noFail
  | rowWriteFail
deriving DecidableEq, Repr

/-- Result of `change_master_password`: the persisted state afterwards,
the Fernet the caller's session continues with, and the outcome. -/
structure RotResult where
  state : DbState
  fernet : FernetKey
  outcome : RotOutcome
deriving DecidableEq, Repr

/-- Model of `change_master_password`, following the source order:
(1) decrypt all rows under the old key, aborting on any `InvalidToken`
with state untouched; (2) check the new password is non-empty and
matches its confirmation, else abort with state untouched; (3) update
the `meta` salt/iterations rows and COMMIT — this commit is separate
from and precedes the row rewrite; (4) derive the new key (a
`ValueError` here would propagate uncaught, after the meta commit);
(5) re-encrypt every row inside `with conn:` — on an exception there the
row updates roll back, the error is caught, and the old Fernet is
returned, but the meta commit of step (3) stands.  `newSalt` stands for
the `os.urandom(SALT_BYTES)` draw. -/
def change_master_password (st : DbState) (fernetOld : FernetKey)
    (newPw1 newPw2 : String) (newSalt : List Nat) (failAt : FailPoint) : RotResult :=
  match decryptAllRows fernetOld st.secrets with
  | none => ⟨st, fernetOld, .authFailure⟩
  | some secretsPlain =>
    if newPw1 = "" ∨ newPw1 ≠ newPw2 then ⟨st, fernetOld, .invalidInput⟩
    else
      let st1 : DbState := ⟨⟨b64encode newSalt, KDF_ITERATIONS⟩, st.secrets⟩
      match derive_fernet_key newPw1 newSalt KDF_ITERATIONS with
      | .error _ => ⟨st1, fernetOld, .uncaughtError⟩
      | .ok fernetNew =>
        match failAt with
        | .rowWriteFail => ⟨st1, fernetOld, .storageFailure⟩
        | .noFail =>
            let secretsNew := secretsPlain.map (fun r => (r.1, fernetEncrypt fernetNew r.2))
            ⟨⟨st1.meta, secretsNew⟩, fernetNew, .ok⟩

/-- Model of menu option 4 of `main`: `DELETE FROM secrets WHERE
service=?`, then report via `cur.rowcount` whether a row was removed.
Returns the remaining table and that boolean. -/
def deleteService (secrets : List (String × Token)) (svc : String) :
    List (String × Token) × Bool :=
  let remaining := secrets.filter (fun r => r.1 ≠ svc)
  (remaining, decide (remaining.length ≠ secrets.length))

/-- Outcome of menu option 2 of `main`: retrieve a row and decrypt it. -/
inductive GetOutcome
  | notFound
  | wrongPasswordOrCorrupted
  | ok (apiKey : String)
deriving DecidableEq, Repr

/-- Model of menu option 2 of `main`: `SELECT ciphertext FROM secrets
WHERE service=?`; NOT FOUND when no row, otherwise decrypt under the
session key. -/
def getService (secrets : List (String × Token)) (k : FernetKey) (svc : String) :
    GetOutcome :=
  match secrets.find? (fun r => r.1 = svc) with
  | none => .notFound
  | some r =>
      match fernetDecrypt k r.2 with
      | some apiKey => .ok apiKey
      | none => .wrongPasswordOrCorrupted

end Step3

/-- Every sextet produced by the base64 packer of a valid byte string is
below 64. -/
theorem b64EncSextets_lt (bs : List Nat) (h : ∀ b ∈ bs, b < 256) :
    ∀ x ∈ b64EncSextets bs, x < 64 := by
  induction bs using b64EncSextets.induct with
  | case1 => simp [b64EncSextets]
  | case2 b0 =>
      have h0 : b0 < 256 := h b0 (by simp)
      simp only [b64EncSextets, List.mem_cons, List.not_mem_nil, or_false]
      rintro x (rfl | rfl) <;> omega
  | case3 b0 b1 =>
      have h0 : b0 < 256 := h b0 (by simp)
      have h1 : b1 < 256 := h b1 (by simp)
      simp only [b64EncSextets, List.mem_cons, List.not_mem_nil, or_false]
      rintro x (rfl | rfl | rfl) <;> omega
  | case4 b0 b1 b2 rest ih =>
      have h0 : b0 < 256 := h b0 (by simp)
      have h1 : b1 < 256 := h b1 (by simp)
      have h2 : b2 < 256 := h b2 (by simp)
      have hr := ih (fun b hb => h b (by simp [hb]))
      simp only [b64EncSextets, List.mem_cons]
      rintro x (rfl | rfl | rfl | rfl | hx)
      · omega
      · omega
      · omega
      · omega
      · exact hr x hx

/-- Unpacking inverts packing on valid byte strings. -/
theorem b64DecSextets_b64EncSextets (bs : List Nat) (h : ∀ b ∈ bs, b < 256) :
    b64DecSextets (b64EncSextets bs) = bs := by
  induction bs using b64EncSextets.induct with
  | case1 => simp [b64EncSextets, b64DecSextets]
  | case2 b0 =>
      have h0 : b0 < 256 := h b0 (by simp)
      simp only [b64EncSextets, b64DecSextets, List.cons.injEq, and_true]
      omega
  | case3 b0 b1 =>
      have h0 : b0 < 256 := h b0 (by simp)
      have h1 : b1 < 256 := h b1 (by simp)
      simp only [b64EncSextets, b64DecSextets, List.cons.injEq, and_true]
      constructor <;> omega
  | case4 b0 b1 b2 rest ih =>
      have h0 : b0 < 256 := h b0 (by simp)
      have h1 : b1 < 256 := h b1 (by simp)
      have h2 : b2 < 256 := h b2 (by simp)
      simp only [b64EncSextets, b64DecSextets, List.cons.injEq]
      refine ⟨by omega, by omega, by omega, ih (fun b hb => h b (by simp [hb]))⟩

/-- The character table inverts on the alphabet range. -/
theorem charToSix_sixToChar (n : Nat) (h : n < 64) : charToSix (sixToChar n) = some n := by
  interval_cases n <;> decide

/-- No sextet maps to the padding character. -/
theorem sixToChar_ne_pad (n : Nat) : sixToChar n ≠ '=' := by
  rcases Nat.lt_or_ge n 64 with h | h
  · interval_cases n <;> decide
  · have hlen : b64Alphabet.length ≤ n := by
      simpa [b64Alphabet] using h
    simp only [sixToChar, List.getD]
    rw [List.get?_eq_none.mpr hlen]
    decide

/-- Translating the characters of a sextet list back recovers it. -/
theorem charsToSextets_map_sixToChar (sx : List Nat) (h : ∀ x ∈ sx, x < 64) :
    charsToSextets (sx.map sixToChar) = some sx := by
  induction sx with
  | nil => simp [charsToSextets]
  | cons a l ih =>
      have ha : a < 64 := h a (by simp)
      have hl := ih (fun x hx => h x (by simp [hx]))
      simp [charsToSextets, charToSix_sixToChar a ha, hl]

/-- Base64 decoding inverts encoding on valid byte strings, the
behaviour `save_vault` and `get_salt_and_iterations` rely on. -/
theorem b64decode_b64encode (bs : List Nat) (h : ∀ b ∈ bs, b < 256) :
    b64decode (b64encode bs) = some bs := by
  have hfilter : ((b64encode bs).data.filter (fun c => c ≠ '='))
      = (b64EncSextets bs).map sixToChar := by
    have hdata : (b64encode bs).data
        = (b64EncSextets bs).map sixToChar ++ List.replicate (b64PadCount bs.length) '=' := rfl
    rw [hdata, List.filter_append]
    have h1 : ((b64EncSextets bs).map sixToChar).filter (fun c => c ≠ '=')
        = (b64EncSextets bs).map sixToChar := by
      apply List.filter_eq_self.mpr
      intro c hc
      rcases List.mem_map.mp hc with ⟨n, _, rfl⟩
      simpa using sixToChar_ne_pad n
    have h2 : (List.replicate (b64PadCount bs.length) '=').filter (fun c => c ≠ '=')
        = [] := by
      simp [List.filter_replicate]
    rw [h1, h2, List.append_nil]
  unfold b64decode
  rw [hfilter, charsToSextets_map_sixToChar _ (b64EncSextets_lt bs h)]
  exact congrArg some (b64DecSextets_b64EncSextets bs h)

/-- Filtering out the rows of one service does not change lookups of any
other service (stated over the fused find-after-filter predicate). -/
theorem find?_erased_other (l : List (String × Step3.Token)) (svc s : String) (hne : s ≠ svc) :
    l.find? (fun a => (!decide (a.1 = svc)) && decide (a.1 = s))
      = l.find? (fun r => decide (r.1 = s)) := by
  induction l with
  | nil => rfl
  | cons r rest ih =>
      rcases eq_or_ne r.1 s with hs | hs
      · have hsv : ¬ (s = svc) := hne
        simp [List.find?_cons, hs, hsv]
      · simp [List.find?_cons, hs, ih]

/-- On well-formed input, key derivation succeeds with the key of its
inputs. -/
theorem derive_fernet_key_ok (p : String) (s : List Nat) (i : Int)
    (hp : p ≠ "") (hs : 8 ≤ s.length) :
    derive_fernet_key p s i = .ok ⟨p, s, i⟩ := by
  unfold derive_fernet_key
  rw [if_neg hp, if_neg (by omega)]

/-- Reading the parameters back from a freshly built document recovers
the salt bytes and iteration count that built it. -/
theorem get_salt_and_iterations_new_vault_doc (ct : Step2.Token) (salt : List Nat)
    (iters : Int) (hb : ∀ b ∈ salt, b < 256) :
    Step2.get_salt_and_iterations (Step2.new_vault_doc ct salt iters) = .ok (salt, iters) := by
  unfold Step2.get_salt_and_iterations Step2.new_vault_doc
  simp [b64decode_b64encode salt hb]

/-- A successful `encrypt_vault_dict` produces exactly the document
`new_vault_doc` builds from the derived key. -/
theorem encrypt_vault_dict_ok (v : List (String × String)) (p : String) (salt : List Nat)
    (iters : Int) (d : Step2.VaultDoc)
    (h : Step2.encrypt_vault_dict v p salt iters = .ok d) :
    d = Step2.new_vault_doc (Step2.fernetEncrypt ⟨p, salt, iters⟩ (.vaultJson v)) salt iters := by
  unfold Step2.encrypt_vault_dict at h
  cases hk : derive_fernet_key p salt iters with
  | error e => rw [hk] at h; cases h
  | ok k =>
      have hkk : k = ⟨p, salt, iters⟩ := by
        unfold derive_fernet_key at hk
        split at hk
        · cases hk
        · split at hk
          · cases hk
          · injection hk with h2
            exact h2.symm
      rw [hk] at h
      injection h with h
      rw [← h, hkk]

/-- C4: `derive_fernet_key` raises `ValueError` (the InvalidInput error)
if and only if the password is empty or the salt is shorter than 8
bytes; every non-empty password with a salt of at least 8 bytes — in
particular every wrong-but-well-formed password — succeeds and returns
the key for those inputs, whatever the iteration count. -/
theorem derive_fernet_key_invalid_iff (password : String) (salt : List Nat) (iterations : Int) :
    ((∃ e, derive_fernet_key password salt iterations = .error e) ↔
      password = "" ∨ salt.length < 8)
    ∧ (password ≠ "" → 8 ≤ salt.length →
        derive_fernet_key password salt iterations = .ok ⟨password, salt, iterations⟩) := by
  unfold derive_fernet_key
  constructor
  · constructor
    · rintro ⟨e, he⟩
      by_contra hc
      push_neg at hc
      rw [if_neg hc.1, if_neg (by omega)] at he
      cases he
    · rintro (rfl | hs)
      · exact ⟨.valueErr, by simp⟩
      · by_cases hp : password = ""
        · exact ⟨.valueErr, by simp [hp]⟩
        · exact ⟨.valueErr, by rw [if_neg hp, if_pos hs]⟩
  · intro hp hs
    rw [if_neg hp, if_neg (by omega)]

/-- Witness for C4 at a concrete well-formed input. -/
theorem derive_fernet_key_invalid_iff_witness :
    derive_fernet_key "hunter2" (List.replicate 16 0) 200000 =
      .ok ⟨"hunter2", List.replicate 16 0, 200000⟩ :=
  (derive_fernet_key_invalid_iff "hunter2" (List.replicate 16 0) 200000).2
    (by decide) (by decide)

/-- C5: key derivation is deterministic — two invocations of
`derive_fernet_key` on identical (password, salt, iterations) inputs
return identical results; the embedding as a pure Lean function also
records that the call has no side effects. -/
theorem derive_fernet_key_deterministic (p₁ p₂ : String) (s₁ s₂ : List Nat) (i₁ i₂ : Int)
    (hp : p₁ = p₂) (hs : s₁ = s₂) (hi : i₁ = i₂) :
    derive_fernet_key p₁ s₁ i₁ = derive_fernet_key p₂ s₂ i₂ := by
  rw [hp, hs, hi]

/-- Witness for C5 at a concrete input. -/
theorem derive_fernet_key_deterministic_witness :
    derive_fernet_key "hunter2" (List.replicate 16 3) 200000 =
      derive_fernet_key "hunter2" (List.replicate 16 3) 200000 :=
  derive_fernet_key_deterministic "hunter2" "hunter2" (List.replicate 16 3)
    (List.replicate 16 3) 200000 200000 rfl rfl rfl

/-- C3: for every dict of string entries (the empty dict included),
every non-empty password, every salt of at least 8 (valid) bytes and
every positive iteration count, decrypting the document produced by
`encrypt_vault_dict` with the same password returns exactly the original
dict — the codec and cipher round trips composed through the on-disk
document, its base64 salt field included. -/
theorem vault_encrypt_decrypt_roundtrip (v : List (String × String)) (password : String)
    (salt : List Nat) (iterations : Int) (hp : password ≠ "") (hs : 8 ≤ salt.length)
    (hb : ∀ b ∈ salt, b < 256) (hi : 0 < iterations) :
    ∃ d, Step2.encrypt_vault_dict v password salt iterations = .ok d
      ∧ Step2.decrypt_vault_dict d password = .ok v := by
  have hk := derive_fernet_key_ok password salt iterations hp hs
  refine ⟨Step2.new_vault_doc
      (Step2.fernetEncrypt ⟨password, salt, iterations⟩ (.vaultJson v)) salt iterations,
    ?_, ?_⟩
  · unfold Step2.encrypt_vault_dict
    rw [hk]
  · unfold Step2.decrypt_vault_dict
    rw [get_salt_and_iterations_new_vault_doc _ salt iterations hb]
    simp [hk, Step2.new_vault_doc, Step2.fernetEncrypt, Step2.fernetDecrypt, Step2.jsonLoads]

/-- Witness for C3 on a concrete one-entry vault. -/
theorem vault_encrypt_decrypt_roundtrip_witness :
    ∃ d, Step2.encrypt_vault_dict [("github", "ghp_abc123")] "hunter2"
          (List.replicate 16 7) 200000 = .ok d
      ∧ Step2.decrypt_vault_dict d "hunter2" = .ok [("github", "ghp_abc123")] :=
  vault_encrypt_decrypt_roundtrip [("github", "ghp_abc123")] "hunter2"
    (List.replicate 16 7) 200000 (by decide) (by decide) (by decide) (by decide)

/-- C7: a save of any entry set with any password over an existing
document (its salt field the base64 of some byte string, as every
document this program writes has) leaves the stored Salt and Iterations
fields exactly as they were before the call. -/
theorem save_vault_preserves_salt_iterations (vault : List (String × String))
    (password : String) (doc d₂ : Step2.VaultDoc)
    (hcanon : ∃ bs, (∀ b ∈ bs, b < 256) ∧ doc.salt = some (b64encode bs))
    (hsave : Step2.save_vault vault password doc = .ok d₂) :
    d₂.salt = doc.salt ∧ d₂.iterations = doc.iterations := by
  obtain ⟨bs, hbs, hsalt⟩ := hcanon
  unfold Step2.save_vault at hsave
  cases hg : Step2.get_salt_and_iterations doc with
  | error e => rw [hg] at hsave; cases hsave
  | ok pr =>
      obtain ⟨salt, iters⟩ := pr
      rw [hg] at hsave
      have hpair : salt = bs ∧ doc.iterations = some iters := by
        unfold Step2.get_salt_and_iterations at hg
        rw [hsalt] at hg
        simp only [b64decode_b64encode bs hbs] at hg
        cases hit : doc.iterations with
        | none => simp only [hit] at hg; cases hg
        | some i =>
            simp only [hit, Except.ok.injEq, Prod.mk.injEq] at hg
            exact ⟨hg.1.symm, congrArg some hg.2⟩
      have hshape := encrypt_vault_dict_ok vault password salt iters d₂ hsave
      rw [hshape, hpair.1]
      unfold Step2.new_vault_doc
      exact ⟨hsalt.symm, hpair.2.symm⟩

/-- Witness for C7 on a concrete document. -/
theorem save_vault_preserves_salt_iterations_witness :
    Step2.save_vault [("a", "1")] "hunter2"
        (Step2.new_vault_doc
          (Step2.fernetEncrypt ⟨"hunter2", List.replicate 16 7, 200000⟩ (.vaultJson []))
          (List.replicate 16 7) 200000)
        = .ok (Step2.new_vault_doc
          (Step2.fernetEncrypt ⟨"hunter2", List.replicate 16 7, 200000⟩ (.vaultJson [("a", "1")]))
          (List.replicate 16 7) 200000)
    ∧ (Step2.new_vault_doc
          (Step2.fernetEncrypt ⟨"hunter2", List.replicate 16 7, 200000⟩ (.vaultJson [("a", "1")]))
          (List.replicate 16 7) 200000).salt
        = (Step2.new_vault_doc
          (Step2.fernetEncrypt ⟨"hunter2", List.replicate 16 7, 200000⟩ (.vaultJson []))
          (List.replicate 16 7) 200000).salt
    ∧ (Step2.new_vault_doc
          (Step2.fernetEncrypt ⟨"hunter2", List.replicate 16 7, 200000⟩ (.vaultJson [("a", "1")]))
          (List.replicate 16 7) 200000).iterations
        = (Step2.new_vault_doc
          (Step2.fernetEncrypt ⟨"hunter2", List.replicate 16 7, 200000⟩ (.vaultJson []))
          (List.replicate 16 7) 200000).iterations := by
  have hsave : Step2.save_vault [("a", "1")] "hunter2"
      (Step2.new_vault_doc
        (Step2.fernetEncrypt ⟨"hunter2", List.replicate 16 7, 200000⟩ (.vaultJson []))
        (List.replicate 16 7) 200000)
      = .ok (Step2.new_vault_doc
        (Step2.fernetEncrypt ⟨"hunter2", List.replicate 16 7, 200000⟩ (.vaultJson [("a", "1")]))
        (List.replicate 16 7) 200000) := by decide
  have h := save_vault_preserves_salt_iterations [("a", "1")] "hunter2"
    (Step2.new_vault_doc
      (Step2.fernetEncrypt ⟨"hunter2", List.replicate 16 7, 200000⟩ (.vaultJson []))
      (List.replicate 16 7) 200000)
    (Step2.new_vault_doc
      (Step2.fernetEncrypt ⟨"hunter2", List.replicate 16 7, 200000⟩ (.vaultJson [("a", "1")]))
      (List.replicate 16 7) 200000)
    ⟨List.replicate 16 7, by decide, rfl⟩ hsave
  exact ⟨hsave, h.1, h.2⟩

/-- C9: every document-form record this program persists — the one
written by first-open initialisation and the one written by any later
save — has version 1, kdf identifier PBKDF2HMAC-SHA256, its salt stored
as base64 text and its ciphertext a stored Fernet token. -/
theorem written_docs_shape (password : String) (freshSalt : List Nat)
    (vault : List (String × String)) (docOnDisk : Step2.VaultDoc) :
    (∀ v d, Step2.load_or_init_vault .missing password freshSalt = .ok (v, some d) →
        d.version = some 1 ∧ d.kdf = some "PBKDF2HMAC-SHA256"
        ∧ d.salt = some (b64encode freshSalt) ∧ ∃ t, d.ciphertext = some t)
    ∧ (∀ d, Step2.save_vault vault password docOnDisk = .ok d →
        d.version = some 1 ∧ d.kdf = some "PBKDF2HMAC-SHA256"
        ∧ (∃ bs, d.salt = some (b64encode bs)) ∧ ∃ t, d.ciphertext = some t) := by
  constructor
  · intro v d hload
    unfold Step2.load_or_init_vault at hload
    cases he : Step2.encrypt_vault_dict [] password freshSalt Step2.KDF_ITERATIONS with
    | error e => rw [he] at hload; cases hload
    | ok d₀ =>
        rw [he] at hload
        injection hload with h
        have hd : d₀ = d := by
          have := congrArg Prod.snd h
          simpa using this
        rw [encrypt_vault_dict_ok [] password freshSalt Step2.KDF_ITERATIONS d₀ he] at hd
        rw [← hd]
        exact ⟨rfl, rfl, rfl, _, rfl⟩
  · intro d hsave
    unfold Step2.save_vault at hsave
    cases hg : Step2.get_salt_and_iterations docOnDisk with
    | error e => rw [hg] at hsave; cases hsave
    | ok pr =>
        obtain ⟨salt, iters⟩ := pr
        rw [hg] at hsave
        rw [encrypt_vault_dict_ok vault password salt iters d hsave]
        exact ⟨rfl, rfl, ⟨salt, rfl⟩, _, rfl⟩

/-- Witness for C9 on the first-open path with a concrete fresh salt. -/
theorem written_docs_shape_witness :
    (Step2.new_vault_doc
        (Step2.fernetEncrypt ⟨"hunter2", List.replicate 16 5, 200000⟩ (.vaultJson []))
        (List.replicate 16 5) 200000).version = some 1
    ∧ (Step2.new_vault_doc
        (Step2.fernetEncrypt ⟨"hunter2", List.replicate 16 5, 200000⟩ (.vaultJson []))
        (List.replicate 16 5) 200000).kdf = some "PBKDF2HMAC-SHA256"
    ∧ (Step2.new_vault_doc
        (Step2.fernetEncrypt ⟨"hunter2", List.replicate 16 5, 200000⟩ (.vaultJson []))
        (List.replicate 16 5) 200000).salt = some (b64encode (List.replicate 16 5))
    ∧ ∃ t, (Step2.new_vault_doc
        (Step2.fernetEncrypt ⟨"hunter2", List.replicate 16 5, 200000⟩ (.vaultJson []))
        (List.replicate 16 5) 200000).ciphertext = some t :=
  (written_docs_shape "hunter2" (List.replicate 16 5) []
      ⟨none, none, none, none, none⟩).1 []
    (Step2.new_vault_doc
      (Step2.fernetEncrypt ⟨"hunter2", List.replicate 16 5, 200000⟩ (.vaultJson []))
      (List.replicate 16 5) 200000)
    (by decide)

/-- C8: deleting a stored service removes its row, reports `true`, and a
subsequent `get` of that service under any key is NOT FOUND; deleting an
absent service reports `false` and leaves the table exactly as it was;
in every case the rows of every other service are unchanged. -/
theorem deleteService_semantics (secrets : List (String × Step3.Token)) (svc : String) :
    ((∃ t, (svc, t) ∈ secrets) →
        (Step3.deleteService secrets svc).2 = true
        ∧ ∀ k, Step3.getService (Step3.deleteService secrets svc).1 k svc = .notFound)
    ∧ ((∀ t, (svc, t) ∉ secrets) →
        (Step3.deleteService secrets svc).2 = false
        ∧ (Step3.deleteService secrets svc).1 = secrets)
    ∧ (∀ s, s ≠ svc →
        (Step3.deleteService secrets svc).1.find? (fun r => r.1 = s)
          = secrets.find? (fun r => r.1 = s)) := by
  refine ⟨?present, ?absent, ?frame⟩
  case present =>
    rintro ⟨t, ht⟩
    constructor
    · have hlt : (secrets.filter (fun r => r.1 ≠ svc)).length < secrets.length :=
        List.length_filter_lt_length_iff_exists.mpr ⟨(svc, t), ht, by simp⟩
      simp only [Step3.deleteService, decide_eq_true_eq]
      omega
    · intro k
      have hnone : (secrets.filter (fun r => r.1 ≠ svc)).find? (fun r => r.1 = svc) = none := by
        rw [List.find?_eq_none]
        intro r hr
        have := List.of_mem_filter hr
        simpa using this
      simp only [Step3.getService, Step3.deleteService]
      rw [hnone]
  case absent =>
    intro habs
    have hall : secrets.filter (fun r => r.1 ≠ svc) = secrets := by
      apply List.filter_eq_self.mpr
      intro r hr
      simp only [decide_eq_true_eq]
      intro hr1
      have hre : (svc, r.2) = r := by rw [← hr1]
      exact habs r.2 (hre ▸ hr)
    have h1 : Step3.deleteService secrets svc = (secrets, false) := by
      simp only [Step3.deleteService]
      rw [hall]
      simp
    exact ⟨by rw [h1], by rw [h1]⟩
  case frame =>
    intro s hs
    simp [Step3.deleteService, find?_erased_other secrets svc s hs]

/-- If any row's token was not produced under the presented key, the
phase-1 scan of rotation fails. -/
theorem decryptAllRows_none (k : FernetKey) (l : List (String × Step3.Token))
    (h : ∃ r ∈ l, (r.2 : Step3.Token).key ≠ k) : Step3.decryptAllRows k l = none := by
  induction l with
  | nil => simp at h
  | cons a rest ih =>
      obtain ⟨svc, t⟩ := a
      obtain ⟨r, hr, hne⟩ := h
      rcases List.mem_cons.mp hr with heq | hmem
      · subst heq
        unfold Step3.decryptAllRows Step3.fernetDecrypt
        rw [if_neg hne]
      · cases hd : Step3.fernetDecrypt k t with
        | none => unfold Step3.decryptAllRows; rw [hd]
        | some v =>
            unfold Step3.decryptAllRows
            rw [hd, ih ⟨r, hmem, hne⟩]
            rfl

/-- C2: if decryption of any single stored credential under the old key
fails in rotation Step 1, the entire rotation aborts reporting the
authentication failure, and the persisted state — every row and the
Salt/Iterations metadata — is returned exactly as it was, whatever the
new password and whatever failure might have been injected later. -/
theorem rotation_decrypt_failure_aborts (st : Step3.DbState) (fernetOld : FernetKey)
    (newPw1 newPw2 : String) (newSalt : List Nat) (failAt : Step3.FailPoint)
    (hfail : ∃ r ∈ st.secrets, (r.2 : Step3.Token).key ≠ fernetOld) :
    Step3.change_master_password st fernetOld newPw1 newPw2 newSalt failAt
      = ⟨st, fernetOld, .authFailure⟩ := by
  unfold Step3.change_master_password
  rw [decryptAllRows_none fernetOld st.secrets hfail]

/-- Witness for C2 on a concrete one-row vault whose row was encrypted
under a different key than the session's. -/
theorem rotation_decrypt_failure_aborts_witness :
    Step3.change_master_password
        ⟨⟨b64encode (List.replicate 16 1), 200000⟩,
         [("github", ⟨⟨"other", List.replicate 16 1, 200000⟩, "k"⟩)]⟩
        ⟨"right", List.replicate 16 1, 200000⟩ "new" "new" (List.replicate 16 2) .noFail
      = ⟨⟨⟨b64encode (List.replicate 16 1), 200000⟩,
          [("github", ⟨⟨"other", List.replicate 16 1, 200000⟩, "k"⟩)]⟩,
         ⟨"right", List.replicate 16 1, 200000⟩, .authFailure⟩ :=
  rotation_decrypt_failure_aborts
    ⟨⟨b64encode (List.replicate 16 1), 200000⟩,
     [("github", ⟨⟨"other", List.replicate 16 1, 200000⟩, "k"⟩)]⟩
    ⟨"right", List.replicate 16 1, 200000⟩ "new" "new" (List.replicate 16 2) .noFail
    ⟨("github", ⟨⟨"other", List.replicate 16 1, 200000⟩, "k"⟩), by simp, by decide⟩

/-- C10: a successful rotation in the tabular vault always writes the
constant 200000 into the stored iteration count, whatever iteration
count the metadata held before. -/
theorem rotation_sets_iterations_constant (st : Step3.DbState) (fernetOld : FernetKey)
    (newPw1 newPw2 : String) (newSalt : List Nat)
    (hdec : (Step3.decryptAllRows fernetOld st.secrets).isSome)
    (hpw : newPw1 ≠ "") (heq : newPw1 = newPw2) (hlen : 8 ≤ newSalt.length) :
    (Step3.change_master_password st fernetOld newPw1 newPw2 newSalt .noFail).outcome
      = .ok
    ∧ (Step3.change_master_password st fernetOld newPw1 newPw2 newSalt
        .noFail).state.meta.iterations = 200000 := by
  obtain ⟨plain, hplain⟩ := Option.isSome_iff_exists.mp hdec
  have hcond : ¬ (newPw1 = "" ∨ newPw1 ≠ newPw2) := by
    rintro (h | h)
    · exact hpw h
    · exact h heq
  have hk := derive_fernet_key_ok newPw1 newSalt Step3.KDF_ITERATIONS hpw hlen
  simp only [Step3.change_master_password, hplain]
  rw [if_neg hcond]
  simp only [hk]
  simp [Step3.KDF_ITERATIONS]

/-- Witness for C10: rotating a vault whose stored iteration count was
100000 leaves 200000 in the metadata. -/
theorem rotation_sets_iterations_constant_witness :
    (Step3.change_master_password
        ⟨⟨b64encode (List.replicate 16 1), 100000⟩,
         [("github", ⟨⟨"old", List.replicate 16 1, 100000⟩, "k"⟩)]⟩
        ⟨"old", List.replicate 16 1, 100000⟩ "new" "new" (List.replicate 16 2)
        .noFail).outcome = .ok
    ∧ (Step3.change_master_password
        ⟨⟨b64encode (List.replicate 16 1), 100000⟩,
         [("github", ⟨⟨"old", List.replicate 16 1, 100000⟩, "k"⟩)]⟩
        ⟨"old", List.replicate 16 1, 100000⟩ "new" "new" (List.replicate 16 2)
        .noFail).state.meta.iterations = 200000 :=
  rotation_sets_iterations_constant
    ⟨⟨b64encode (List.replicate 16 1), 100000⟩,
     [("github", ⟨⟨"old", List.replicate 16 1, 100000⟩, "k"⟩)]⟩
    ⟨"old", List.replicate 16 1, 100000⟩ "new" "new" (List.replicate 16 2)
    (by decide) (by decide) (by decide) (by decide)

/-- C1: evaluation of `change_master_password` at the failing input.
The source commits the new Salt/Iterations metadata in a transaction of
its own before the row re-encryption transaction begins, so a storage
error injected during the row rewrite leaves the metadata already
holding the new salt and 200000 iterations while the only row still
carries ciphertext under the old key — the vault is neither in its
pre-rotation state nor fully rotated, contradicting the claimed
single-transaction atomicity. -/
theorem rotation_rowfail_mixed_state :
    (Step3.change_master_password
        ⟨⟨b64encode (List.replicate 16 1), 100000⟩,
         [("github", ⟨⟨"old", List.replicate 16 1, 100000⟩, "ghp_abc123"⟩)]⟩
        ⟨"old", List.replicate 16 1, 100000⟩ "new" "new" (List.replicate 16 2)
        .rowWriteFail).state
      = ⟨⟨b64encode (List.replicate 16 2), 200000⟩,
         [("github", ⟨⟨"old", List.replicate 16 1, 100000⟩, "ghp_abc123"⟩)]⟩
    ∧ (Step3.change_master_password
        ⟨⟨b64encode (List.replicate 16 1), 100000⟩,
         [("github", ⟨⟨"old", List.replicate 16 1, 100000⟩, "ghp_abc123"⟩)]⟩
        ⟨"old", List.replicate 16 1, 100000⟩ "new" "new" (List.replicate 16 2)
        .rowWriteFail).outcome = .storageFailure
    ∧ b64encode (List.replicate 16 2) ≠ b64encode (List.replicate 16 1)
    ∧ (100000 : Int) ≠ 200000 :=
  ⟨by decide, by decide, by decide, by decide⟩

/-- C6 counterexample: a fully well-formed stored document — its salt
and iterations parse, its ciphertext is present — opened with an empty
password is reported as MalformedVault: `derive_fernet_key` raises
`ValueError`, which the loader's second except clause folds into the
malformed-vault error although the record structure parses fine. -/
theorem load_malformed_on_empty_password :
    Step2.load_or_init_vault
        (.present (.doc (Step2.new_vault_doc
          (Step2.fernetEncrypt ⟨"hunter2", List.replicate 16 7, 200000⟩ (.vaultJson []))
          (List.replicate 16 7) 200000))) "" (List.replicate 16 0)
      = .error .malformedVault
    ∧ Step2.get_salt_and_iterations (Step2.new_vault_doc
          (Step2.fernetEncrypt ⟨"hunter2", List.replicate 16 7, 200000⟩ (.vaultJson []))
          (List.replicate 16 7) 200000)
        = .ok (List.replicate 16 7, 200000)
    ∧ (Step2.new_vault_doc
        (Step2.fernetEncrypt ⟨"hunter2", List.replicate 16 7, 200000⟩ (.vaultJson []))
        (List.replicate 16 7) 200000).ciphertext
      = some (Step2.fernetEncrypt ⟨"hunter2", List.replicate 16 7, 200000⟩ (.vaultJson [])) :=
  ⟨by decide, by decide, by decide⟩

/-- A numeric salt field makes `base64.b64decode` raise `TypeError`,
which the loader's except clauses do not catch: open crashes uncaught
instead of reporting MalformedVault. -/
theorem load_numeric_salt_uncaught :
    Step2.Raw.load_existing_vault
        (.obj ⟨none, none, some (.num 200000), some (.num 42), none⟩) "hunter2"
      = .uncaught := by decide

/-- A list (or any other non-string, non-number JSON value) in the
iterations field makes `int` raise `TypeError`: open crashes uncaught. -/
theorem load_list_iterations_uncaught :
    Step2.Raw.load_existing_vault
        (.obj ⟨none, none, some .other,
          some (.str (b64encode (List.replicate 16 7))), none⟩) "hunter2"
      = .uncaught := by decide

/-- A decrypted payload that is valid JSON but not a dict loads
successfully and is returned as the vault — no error of any kind. -/
theorem load_nondict_payload_succeeds :
    Step2.Raw.load_existing_vault
        (.obj ⟨none, none, some (.num 200000),
          some (.str (b64encode (List.replicate 16 7))),
          some (.tokStr ⟨⟨"hunter2", List.replicate 16 7, 200000⟩, .jsonNonDict⟩)⟩)
        "hunter2"
      = .ok .nonDict := by decide

/-- C6 as amended, at the untyped JSON level of the on-disk file: open
of an existing vault fails with WrongPasswordOrCorrupted exactly when
Fernet decryption raises `InvalidToken` (wrong password, or ciphertext
bytes that are not a valid token); it fails with MalformedVault exactly
when the read/decrypt pipeline raises `json.JSONDecodeError`, `KeyError`
or `ValueError` — an unparsable file, a missing field, undecodable
base64, a too-short stored salt, an empty supplied password, or
decrypted plaintext that is not valid JSON; a wrong-typed field value or
a non-object document instead raises `TypeError`, which neither except
clause catches, so open crashes uncaught rather than reporting
MalformedVault; and a decrypted payload that is valid JSON but not a
dict is returned successfully.  The two failure kinds remain distinct
outcomes. -/
theorem load_error_classification (d : Step2.Raw.RawDoc) (password : String) :
    (Step2.Raw.load_existing_vault (.obj d) password = .wrongPasswordOrCorrupted
      ↔ Step2.Raw.decrypt_vault_dict d password = .error .invalidToken)
    ∧ (Step2.Raw.load_existing_vault (.obj d) password = .malformedVault
      ↔ ∃ e, Step2.Raw.decrypt_vault_dict d password = .error e
          ∧ e ≠ PyErr.invalidToken ∧ e ≠ PyErr.typeErr)
    ∧ (Step2.Raw.load_existing_vault (.obj d) password = .uncaught
      ↔ Step2.Raw.decrypt_vault_dict d password = .error .typeErr)
    ∧ (∀ v, Step2.Raw.load_existing_vault (.obj d) password = .ok v
      ↔ Step2.Raw.decrypt_vault_dict d password = .ok v)
    ∧ Step2.Raw.load_existing_vault .notJson password = .malformedVault
    ∧ Step2.Raw.load_existing_vault .nonObjectJson password = .uncaught := by
  cases hd : Step2.Raw.decrypt_vault_dict d password with
  | ok v => simp [Step2.Raw.load_existing_vault, hd]
  | error e => cases e <;> simp [Step2.Raw.load_existing_vault, hd]

/-- Witness for C8 on a concrete two-row table. -/
theorem deleteService_semantics_witness :
    (Step3.deleteService
        [("github", ⟨⟨"pw", List.replicate 16 0, 200000⟩, "k1"⟩),
         ("gitlab", ⟨⟨"pw", List.replicate 16 0, 200000⟩, "k2"⟩)] "github").2 = true
    ∧ ∀ k, Step3.getService
        (Step3.deleteService
          [("github", ⟨⟨"pw", List.replicate 16 0, 200000⟩, "k1"⟩),
           ("gitlab", ⟨⟨"pw", List.replicate 16 0, 200000⟩, "k2"⟩)] "github").1 k "github"
        = .notFound :=
  (deleteService_semantics
      [("github", ⟨⟨"pw", List.replicate 16 0, 200000⟩, "k1"⟩),
       ("gitlab", ⟨⟨"pw", List.replicate 16 0, 200000⟩, "k2"⟩)] "github").1
    ⟨⟨⟨"pw", List.replicate 16 0, 200000⟩, "k1"⟩, by simp⟩

end SecretManager
